import Mathlib

/-!
Verification of the ai-sdk-telemetry-collector core: a shallow embedding of the
interception engine (`src/ai-sdk-integration.ts`), the content extraction pipeline,
and the batch dispatcher (`src/telemetry-sender.ts`), with theorems settling the
specification claims about them.

JavaScript strings are modelled as lists of characters (`Str`), JavaScript numbers
as rationals extended with the IEEE special values where a claim depends on them
(`JsNum`), and thrown exceptions as `Except JsError`.
-/

/-- JavaScript string contents (prompt/response text) modelled as a list of
characters; `length`, `slice` and scanning map to list operations. -/
abbrev Str := List Char

/-- A thrown JavaScript `Error`: its `name` and `message` properties, which are
what `recordError` reads (`error.message`, `error.name`). -/
structure JsError where
  name : String
  message : String
deriving DecidableEq

/-- The collector configuration after the defaults of the `AITelemetryCollector`
constructor have been merged in (`telemetry-collector.ts`): every option the
embedded code reads is present with a definite value. -/
structure TelemetryConfig where
  batchSize : Nat
  batchTimeoutMs : ℚ
  capturePrompts : Bool
  captureResponses : Bool
  captureSystemPrompt : Bool
  maxContentLength : Nat
  redactSensitiveData : Bool
  retryMaxAttempts : Nat
  retryDelayMs : ℚ
deriving DecidableEq

/-- The defaults installed by the `AITelemetryCollector` constructor:
batchSize 10, batchTimeout 5000, capture flags true, maxContentLength 10000,
redactSensitiveData false, retry 3 attempts with base delay 1000 ms. -/
def defaultConfig : TelemetryConfig :=
  ⟨10, 5000, true, true, true, 10000, false, 3, 1000⟩

/-- Word character in the sense of the JavaScript regex word boundary `\b`. -/
def isWordChar (c : Char) : Bool :=
  c.isAlpha || c.isDigit || c = '_'

/-- Character class of the local part of the email redaction regex, with the
case-insensitive flag folded in: letters, digits, and the symbols . _ % + -. -/
def isEmailLocalChar (c : Char) : Bool :=
  c.isAlpha || c.isDigit || c = '.' || c = '_' || c = '%' || c = '+' || c = '-'

/-- Character class of the domain part of the email redaction regex:
letters, digits, dot and hyphen. -/
def isEmailDomainChar (c : Char) : Bool :=
  c.isAlpha || c.isDigit || c = '.' || c = '-'

/-- Character class of the body of the key redaction regex: letters, digits,
underscore and hyphen (case-insensitive flag folded in). -/
def isKeyBodyChar (c : Char) : Bool :=
  c.isAlpha || c.isDigit || c = '_' || c = '-'

/-- Backtracking search for the dot split of the email domain: the domain regex
greedily consumes the maximal domain-character run and then gives characters
back, so the rightmost dot preceded by at least one domain character and
followed immediately by at least two letters wins. Returns the dot index and
the length of the greedy letter run after it. -/
def emailDomainSplit (dom : Str) : Option (Nat × Nat) :=
  (List.range dom.length).reverse.findSome? fun i =>
    match dom.drop i with
    | '.' :: rest =>
      if 1 ≤ i then
        let tld := rest.takeWhile Char.isAlpha
        if 2 ≤ tld.length then some (i, tld.length) else none
      else none
    | _ => none

/-- Attempt to match the email redaction regex at the head of the input. The
local part must be a nonempty maximal run of local characters followed
immediately by an at-sign (giving back local characters can never reach an
at-sign, so the maximal run is the only candidate). On success returns the
remainder of the input after the matched text. -/
def tryEmail (cs : Str) : Option Str :=
  let loc := cs.takeWhile isEmailLocalChar
  if loc.isEmpty then none
  else
    match cs.drop loc.length with
    | '@' :: rest =>
      let dom := rest.takeWhile isEmailDomainChar
      match emailDomainSplit dom with
      | some (i, tldLen) => some (rest.drop (i + 1 + tldLen))
      | none => none
    | _ => none

/-- Case-insensitive literal match: consumes the pattern from the head of the
input, comparing lowercased characters, and returns the remainder. -/
def matchCI : Str → Str → Option Str
  | [], cs => some cs
  | _ :: _, [] => none
  | p :: ps, c :: cs => if p.toLower = c.toLower then matchCI ps cs else none

/-- Attempt to match `key` followed by at least ten key-body characters at the
head of the input (the mandatory tail of the key redaction regex). -/
def tryKeyBody (cs : Str) : Option Str :=
  match matchCI ['k', 'e', 'y'] cs with
  | some rest =>
    let body := rest.takeWhile isKeyBodyChar
    if 10 ≤ body.length then some (rest.drop body.length) else none
  | none => none

/-- Attempt to match the key redaction regex at the head of the input: the
optional `api_` group is tried greedily first, falling back to the bare `key`
alternative at the same position when the longer attempt fails. -/
def tryKey (cs : Str) : Option Str :=
  match matchCI ['a', 'p', 'i', '_'] cs with
  | some rest =>
    match tryKeyBody rest with
    | some r => some r
    | none => tryKeyBody cs
  | none => tryKeyBody cs

/-- Global regex replacement: scan left to right, and wherever the matcher
succeeds splice in the replacement and resume after the matched text, exactly
as a JavaScript global `replace` does for patterns that cannot match the empty
string. Fuel bounds the recursion; every successful match consumes at least
one character, so fuel equal to the input length suffices. -/
def replaceScan (tryMatch : Str → Option Str) (repl : Str) : Nat → Str → Str
  | 0, cs => cs
  | _ + 1, [] => []
  | fuel + 1, c :: cs =>
    match tryMatch (c :: cs) with
    | some rest => repl ++ replaceScan tryMatch repl fuel rest
    | none => c :: replaceScan tryMatch repl fuel cs

/-- Run a global replacement over the whole input. -/
def replaceAll (tryMatch : Str → Option Str) (repl : Str) (cs : Str) : Str :=
  replaceScan tryMatch repl cs.length cs

/-- Replacement text for the email redaction. -/
def redactedEmail : Str := "[redacted-email]".toList

/-- Replacement text for the key redaction. -/
def redactedKey : Str := "[redacted-key]".toList

/-- Replacement text for the card-number redaction. -/
def redactedNumber : Str := "[redacted-number]".toList

/-- Global replacement of 13 to 16 digit runs delimited by word boundaries.
A word boundary can never fall between two digits, so the only candidate
matches are maximal digit runs whose neighbours (or the string ends) are
non-word characters; runs of any other length are copied through unchanged.
The boolean argument tracks whether the previous character of the original
input was a word character. -/
def replaceNumbersGo (fuel : Nat) (prevWord : Bool) (cs : Str) : Str :=
  match fuel, cs with
  | 0, rest => rest
  | _ + 1, [] => []
  | fuel + 1, c :: cs =>
    if c.isDigit && !prevWord then
      let run := (c :: cs).takeWhile Char.isDigit
      let rest := (c :: cs).drop run.length
      let okAfter : Bool := match rest with
        | [] => true
        | r :: _ => !isWordChar r
      if 13 ≤ run.length ∧ run.length ≤ 16 ∧ okAfter = true then
        redactedNumber ++ replaceNumbersGo fuel true rest
      else
        run ++ replaceNumbersGo fuel true rest
    else
      c :: replaceNumbersGo fuel (isWordChar c) cs

/-- Global replacement of card-number-like digit runs, starting at a word
boundary (the start of the string). -/
def replaceNumbers (cs : Str) : Str :=
  replaceNumbersGo cs.length false cs

/-- The redaction pipeline of `truncateAndMaybeRedact`: the three chained
`replace` calls applied in source order, emails first, then keys, then
card-number-like digit runs. -/
def redactAll (cs : Str) : Str :=
  replaceNumbers (replaceAll tryKey redactedKey (replaceAll tryEmail redactedEmail cs))

/-- The truncation stage considered on its own: cut to `maxContentLength`
characters when the text is longer, otherwise leave it unchanged. -/
def truncateStep (cfg : TelemetryConfig) (text : Str) : Str :=
  if text.length > cfg.maxContentLength then text.take cfg.maxContentLength else text

/-- The redaction stage considered on its own: apply the redaction pipeline
only when `redactSensitiveData` is enabled. -/
def redactStep (cfg : TelemetryConfig) (text : Str) : Str :=
  if cfg.redactSensitiveData then redactAll text else text

/-- Direct transcription of `truncateAndMaybeRedact`: falsy (empty) text is
returned as is; otherwise the text is truncated to `maxContentLength` and the
result is then redacted when `redactSensitiveData` is enabled. -/
def truncateAndMaybeRedact (cfg : TelemetryConfig) (text : Str) : Str :=
  if text.isEmpty then text
  else
    let out := if text.length > cfg.maxContentLength then text.take cfg.maxContentLength else text
    if cfg.redactSensitiveData then redactAll out else out

/-- A chat message as consumed by `extractPrompts`: a role and the (already
stringified) content. Messages whose role is falsy (the empty string) are
skipped by the extraction loop. -/
structure Message where
  role : String
  content : Str
deriving DecidableEq

/-- The scanning loop of `extractPrompts`: walk the message list in order,
remembering the content of the most recent message whose role is `user`
respectively `system`, skipping messages with a falsy role. -/
def scanPrompts : List Message → Option Str × Option Str → Option Str × Option Str
  | [], acc => acc
  | m :: ms, (u, s) =>
    if m.role = "" then scanPrompts ms (u, s)
    else
      scanPrompts ms
        (if m.role = "user" then some m.content else u,
         if m.role = "system" then some m.content else s)

/-- Result of `extractPrompts`: the `userPrompt` / `systemPrompt` fields of the
returned object, `none` standing for an absent (undefined) property. -/
structure ExtractedPrompts where
  userPrompt : Option Str
  systemPrompt : Option Str
deriving DecidableEq

/-- Transcription of `extractPrompts`: scan for the last user and system
messages, then, unless the corresponding capture flag is false, pass the found
content (defaulting to the empty string) through `truncateAndMaybeRedact`. -/
def extractPrompts (cfg : TelemetryConfig) (messages : List Message) : ExtractedPrompts :=
  let scanned := scanPrompts messages (none, none)
  { userPrompt :=
      if cfg.capturePrompts = false then none
      else some (truncateAndMaybeRedact cfg (scanned.1.getD []))
    systemPrompt :=
      if cfg.captureSystemPrompt = false then none
      else some (truncateAndMaybeRedact cfg (scanned.2.getD [])) }

/-- JavaScript `a || b` on an optional number: the fallback is used when the
value is absent (undefined) or falsy (zero). -/
def jsOrNum (v : Option ℚ) (d : ℚ) : ℚ :=
  match v with
  | some x => if x = 0 then d else x
  | none => d

/-- JavaScript `a || b` on an optional string: the fallback is used when the
value is absent (undefined) or falsy (empty). -/
def jsOrStr (v : Option String) (d : String) : String :=
  match v with
  | some s => if s = "" then d else s
  | none => d

/-- The generation settings block extracted into every record. -/
structure GenerationSettings where
  maxOutputTokens : ℚ
  temperature : ℚ
  topP : ℚ
  frequencyPenalty : ℚ
  presencePenalty : ℚ
deriving DecidableEq

/-- The AI SDK options object as read by the wrappers: the message list, the
`experimental_telemetry.functionId` override, and the numeric generation
settings, each possibly absent. -/
structure AISDKOptions where
  messages : Option (List Message)
  functionId : Option String
  maxTokens : Option ℚ
  maxOutputTokens : Option ℚ
  temperature : Option ℚ
  topP : Option ℚ
  frequencyPenalty : Option ℚ
  presencePenalty : Option ℚ
deriving DecidableEq

/-- Transcription of `extractSettings`: every field falls back through the
JavaScript `||` chain of the source, so absent and zero-valued options alike
take the default (maxTokens falls back to maxOutputTokens then 1000,
temperature to 0.7, topP to 1, the penalties to 0). -/
def extractSettings (options : AISDKOptions) : GenerationSettings :=
  { maxOutputTokens := jsOrNum options.maxTokens (jsOrNum options.maxOutputTokens 1000)
    temperature := jsOrNum options.temperature (7 / 10)
    topP := jsOrNum options.topP 1
    frequencyPenalty := jsOrNum options.frequencyPenalty 0
    presencePenalty := jsOrNum options.presencePenalty 0 }

/-- Provider-reported token usage. -/
structure Usage where
  promptTokens : ℚ
  completionTokens : ℚ
  totalTokens : ℚ
deriving DecidableEq

/-- The value a wrapped operation resolves with, as far as the telemetry code
inspects it: either a nullish value (null or undefined, on which any property
access throws), or an object with optional `text` and `usage` properties. -/
inductive ResultVal where
  | nullish
  | obj (text : Option Str) (usage : Option Usage)
deriving DecidableEq

/-- A JavaScript number as needed by the performance metrics: a finite
rational or one of the IEEE special values that division can produce. -/
inductive JsNum where
  | num (q : ℚ)
  | posInf
  | negInf
  | nan
deriving DecidableEq

/-- IEEE semantics of JavaScript division on finite operands: division by zero
yields an infinity of the numerator's sign, and zero by zero yields NaN. -/
def jsDivNum (a b : ℚ) : JsNum :=
  if b = 0 then
    if a = 0 then JsNum.nan
    else if 0 < a then JsNum.posInf
    else JsNum.negInf
  else JsNum.num (a / b)

/-- Transcription of the `avgCompletionTokensPerSecond` expression of
`recordCompletion`: the truthiness test is on `completionTokens` (absent or
zero gives 0), and otherwise the tokens are divided by the elapsed time in
seconds with plain JavaScript division. -/
def avgCompletionTokensPerSecond (completionTokens : Option ℚ) (responseTimeMs : ℚ) : JsNum :=
  match completionTokens with
  | none => JsNum.num 0
  | some c => if c = 0 then JsNum.num 0 else jsDivNum c (responseTimeMs / 1000)

/-- The captured-content portion of a record's metadata, plus the error keys.
A `none` field models an absent key. Caller-supplied metadata is spread first
in the source and can never overwrite these keys, so it is not modelled. -/
structure CapturedMetadata where
  prompt : Option Str
  promptLength : Option Nat
  hasUserPrompt : Bool
  systemPrompt : Option Str
  systemPromptLength : Option Nat
  hasSystemPrompt : Bool
  response : Option Str
  responseLength : Option Nat
  hasResponse : Bool
  messageCount : Option Nat
  error : Option String
  errorType : Option String
deriving DecidableEq

/-- The per-invocation telemetry context built at wrapper entry. The id
fields (requestId, sessionId) and the wall-clock timestamp are generated
nondeterministically in the source and play no role in any claim, so they are
not modelled; `startTime` is the captured `Date.now()` at entry. -/
structure TelemetryContext where
  functionId : String
  startTime : ℚ
  settings : GenerationSettings
  messages : Option (List Message)
  userPrompt : Option Str
  systemPrompt : Option Str
  responseContent : Option Str
  firstChunkTime : Option ℚ
  chunkCount : Option Nat
deriving DecidableEq

/-- Context construction shared by the wrappers: extract prompts from the
message list (empty when absent), extract settings, and take the functionId
from `experimental_telemetry` with the wrapper's name as fallback. -/
def makeTelemetryContext (cfg : TelemetryConfig) (options : AISDKOptions)
    (defaultFunctionId : String) (startTime : ℚ) : TelemetryContext :=
  let prompts := extractPrompts cfg (options.messages.getD [])
  { functionId := jsOrStr options.functionId defaultFunctionId
    startTime := startTime
    settings := extractSettings options
    messages := options.messages
    userPrompt := prompts.userPrompt
    systemPrompt := prompts.systemPrompt
    responseContent := none
    firstChunkTime := none
    chunkCount := none }

/-- JavaScript truthiness of an optional string: present and nonempty. -/
def strTruthy : Option Str → Bool
  | some s => !s.isEmpty
  | none => false

/-- Transcription of `buildCapturedMetadata`: each captured block is emitted
only when its capture flag is not false AND the value is truthy (so an empty
captured string produces an absent key); the response falls back from the
context to the result's `text` when that is truthy, and is passed through
`truncateAndMaybeRedact` again. -/
def buildCapturedMetadata (cfg : TelemetryConfig) (ctx : TelemetryContext)
    (result : Option ResultVal) : CapturedMetadata :=
  let prompt := ctx.userPrompt
  let sys := ctx.systemPrompt
  let resp : Option Str :=
    match ctx.responseContent with
    | some s => some s
    | none =>
      match result with
      | some (ResultVal.obj (some t) _) => if t.isEmpty then none else some t
      | _ => none
  { prompt := if cfg.capturePrompts && strTruthy prompt then prompt else none
    promptLength :=
      if cfg.capturePrompts && strTruthy prompt then some (prompt.getD []).length else none
    hasUserPrompt := cfg.capturePrompts && strTruthy prompt
    systemPrompt := if cfg.captureSystemPrompt && strTruthy sys then sys else none
    systemPromptLength :=
      if cfg.captureSystemPrompt && strTruthy sys then some (sys.getD []).length else none
    hasSystemPrompt := cfg.captureSystemPrompt && strTruthy sys
    response :=
      if cfg.captureResponses && strTruthy resp then
        some (truncateAndMaybeRedact cfg (resp.getD []))
      else none
    responseLength :=
      if cfg.captureResponses && strTruthy resp then
        some (truncateAndMaybeRedact cfg (resp.getD [])).length
      else none
    hasResponse := cfg.captureResponses && strTruthy resp
    messageCount := ctx.messages.map List.length
    error := none
    errorType := none }

/-- The performance block of a record. -/
structure PerformanceData where
  msToFirstChunk : ℚ
  msToFinish : ℚ
  avgCompletionTokensPerSecond : JsNum
  chunkCount : Nat
deriving DecidableEq

/-- A telemetry record as assembled by `recordCompletion` / `recordError`.
The generated id, ISO timestamp and span context carry no claim-relevant
information and are not modelled. -/
structure TelemetryRecord where
  functionId : String
  usage : Usage
  performance : PerformanceData
  settings : GenerationSettings
  metadata : CapturedMetadata
deriving DecidableEq

/-- The TypeError thrown by `result.usage` when the resolved value is nullish. -/
def nullUsageError : JsError :=
  ⟨"TypeError", "Cannot read properties of null (reading usage)"⟩

/-- Transcription of `recordCompletion`: reading `result.usage` on a nullish
result throws; otherwise the record is assembled with the provider usage
(zeroed when absent), the performance block (first-chunk latency only when
`firstChunkTime` is truthy, average tokens per second per
`avgCompletionTokensPerSecond`), and the captured metadata. -/
def recordCompletion (cfg : TelemetryConfig) (ctx : TelemetryContext)
    (result : ResultVal) (responseTime : ℚ) : Except JsError TelemetryRecord :=
  match result with
  | ResultVal.nullish => Except.error nullUsageError
  | ResultVal.obj _text usage =>
    Except.ok
      { functionId := ctx.functionId
        usage := usage.getD ⟨0, 0, 0⟩
        performance :=
          { msToFirstChunk :=
              match ctx.firstChunkTime with
              | some t => if t = 0 then 0 else t - ctx.startTime
              | none => 0
            msToFinish := responseTime
            avgCompletionTokensPerSecond :=
              avgCompletionTokensPerSecond (usage.map Usage.completionTokens) responseTime
            chunkCount := ctx.chunkCount.getD 0 }
        settings := ctx.settings
        metadata := buildCapturedMetadata cfg ctx (some result) }

/-- Transcription of `recordError`: usage zeroed, elapsed time now minus
start, captured metadata rebuilt without a result, and the `error` /
`errorType` keys spread last so they always hold the thrown error's message
and name. -/
def recordError (cfg : TelemetryConfig) (ctx : TelemetryContext)
    (e : JsError) (now : ℚ) : TelemetryRecord :=
  { functionId := ctx.functionId
    usage := ⟨0, 0, 0⟩
    performance :=
      { msToFirstChunk := 0
        msToFinish := now - ctx.startTime
        avgCompletionTokensPerSecond := JsNum.num 0
        chunkCount := 0 }
    settings := ctx.settings
    metadata :=
      { buildCapturedMetadata cfg ctx none with
        error := some e.message
        errorType := some e.name } }

/-- The expression `String(result?.text ?? '')` of the generateText wrapper. -/
def resultTextString : ResultVal → Str
  | ResultVal.nullish => []
  | ResultVal.obj text _ => text.getD []

/-- Transcription of the wrapper returned by `wrapGenerateText`, as a function
of the underlying operation's settled outcome. On an operation error the
single try/catch enqueues an error record and rethrows the same error. On
success the wrapper stores the captured response on the context and calls
`recordCompletion`; a throw inside that telemetry construction (for example
reading `.usage` off a nullish result) lands in the same catch block, which
enqueues an error record and rethrows the internal exception to the caller.
The second component collects the records handed to `sendCustomTelemetry`. -/
def wrapGenerateText (cfg : TelemetryConfig) (options : AISDKOptions)
    (startTime now : ℚ) (opOutcome : Except JsError ResultVal) :
    Except JsError ResultVal × List TelemetryRecord :=
  let ctx := makeTelemetryContext cfg options "generateText" startTime
  match opOutcome with
  | Except.error e => (Except.error e, [recordError cfg ctx e now])
  | Except.ok result =>
    let ctx1 :=
      if cfg.captureResponses then
        { ctx with responseContent := some (truncateAndMaybeRedact cfg (resultTextString result)) }
      else ctx
    match recordCompletion cfg ctx1 result (now - startTime) with
    | Except.ok record => (Except.ok result, [record])
    | Except.error e2 => (Except.error e2, [recordError cfg ctx1 e2 now])

/-- One invocation of the `onFinish` handler installed by
`setupStreamTelemetry`: the handler body just calls `recordCompletion` with
the elapsed time and enqueues the record — the context carries no
already-emitted flag and the handler performs no deduplication. A throw
inside `recordCompletion` escapes to the handler's caller and enqueues
nothing. -/
def onFinishEmitted (cfg : TelemetryConfig) (ctx : TelemetryContext)
    (result : ResultVal) (now : ℚ) : List TelemetryRecord :=
  match recordCompletion cfg ctx result (now - ctx.startTime) with
  | Except.ok record => [record]
  | Except.error _ => []

/-- The records enqueued for one streaming invocation whose installed
`onFinish` handler fires once per listed event (the stream-end branch of the
wrapped body pump only mutates the context and enqueues nothing). -/
def streamFinishEvents (cfg : TelemetryConfig) (ctx : TelemetryContext) :
    List (ResultVal × ℚ) → List TelemetryRecord
  | [] => []
  | (r, now) :: rest => onFinishEmitted cfg ctx r now ++ streamFinishEvents cfg ctx rest

/-- The sender state observable through the queue: the pending batch and the
batches flushed so far, in order. The `isDestroyed` misuse guard and the
wall-clock batch ids are outside every claim and are not modelled. -/
structure SenderState where
  batch : List TelemetryRecord
  flushedBatches : List (List TelemetryRecord)
deriving DecidableEq

/-- Queue dynamics of `flushBatch`: an empty batch is left alone; otherwise
the batch is snapshotted, the live queue is cleared, and the snapshot is
handed to the network send (recorded here as a flushed batch; delivery and
retry never touch the live queue again). -/
def flushBatch (s : SenderState) : SenderState :=
  if s.batch.isEmpty then s
  else { batch := [], flushedBatches := s.flushedBatches ++ [s.batch] }

/-- Transcription of `sendTelemetry`: append the record to the pending batch,
then flush immediately when the batch has reached `batchSize`. -/
def sendTelemetry (cfg : TelemetryConfig) (s : SenderState) (d : TelemetryRecord) : SenderState :=
  let s1 : SenderState := { s with batch := s.batch ++ [d] }
  if cfg.batchSize ≤ s1.batch.length then flushBatch s1 else s1

/-- A sequence of `sendTelemetry` calls in order. -/
def enqueueAll (cfg : TelemetryConfig) (s : SenderState) (ds : List TelemetryRecord) : SenderState :=
  ds.foldl (sendTelemetry cfg) s

/-- Connection status of the sender. -/
inductive ConnectionStatus where
  | connected
  | disconnected
  | error
deriving DecidableEq

/-- Observable trace of one `flushBatch` delivery including its retry loop:
how many times `sendBatch` ran, the delay awaited before each send (in order),
the final connection status, and whether the batch was dropped. -/
structure FlushTrace where
  sendCount : Nat
  delays : List ℚ
  status : ConnectionStatus
  batchDropped : Bool
deriving DecidableEq

/-- Transcription of the `retryBatch` loop over the listed attempt numbers:
attempt 1 sends immediately, attempt k greater than 1 first awaits
`baseDelay * 2 ^ (k - 1)`; the loop returns on the first success. Yields the
per-attempt delays, the number of sends performed, and whether any succeeded.
The send oracle says whether the attempt with a given index succeeds. -/
def retryAttempts (sendOk : Nat → Bool) (baseDelay : ℚ) : List Nat → List ℚ × Nat × Bool
  | [] => ([], 0, false)
  | k :: rest =>
    let d : ℚ := if 1 < k then baseDelay * 2 ^ (k - 1) else 0
    if sendOk k then ([d], 1, true)
    else
      let (ds, n, succ) := retryAttempts sendOk baseDelay rest
      (d :: ds, n + 1, succ)

/-- Transcription of the delivery path of `flushBatch`: one immediate send
(index 0); on failure the status becomes error and `retryBatch` runs attempts
1 through `maxAttempts` on the same captured batch. A batch whose retries are
exhausted is dropped and the status stays error; any success sets connected. -/
def flushBatchTrace (sendOk : Nat → Bool) (maxAttempts : Nat) (baseDelay : ℚ) : FlushTrace :=
  if sendOk 0 then
    { sendCount := 1, delays := [0], status := ConnectionStatus.connected, batchDropped := false }
  else
    let (ds, n, succ) := retryAttempts sendOk baseDelay (List.range' 1 maxAttempts)
    { sendCount := 1 + n
      delays := 0 :: ds
      status := if succ then ConnectionStatus.connected else ConnectionStatus.error
      batchDropped := !succ }

/-- Options fixture: a single user message and no explicit settings. -/
def sampleOptions : AISDKOptions :=
  ⟨some [⟨"user", "U".toList⟩], none, none, none, none, none, none, none⟩

/-- Context fixture built from `sampleOptions` under the default config. -/
def sampleContext : TelemetryContext :=
  makeTelemetryContext defaultConfig sampleOptions "streamText" 0

/-- Streaming result fixture: text "R", usage 5 + 3 = 8 tokens. -/
def sampleResult : ResultVal := ResultVal.obj (some "R".toList) (some ⟨5, 3, 8⟩)

/-- C1 counterexample: an internal telemetry exception does propagate to the
caller. When the wrapped operation resolves with a nullish value, building the
completion record throws a TypeError reading `.usage`; the wrapper's catch
block enqueues an error record and rethrows it, so `wrap(O)(A)` rejects while
`O(A)` resolved — the two do not settle identically. -/
theorem c1_counterexample :
    (wrapGenerateText defaultConfig sampleOptions 0 5 (Except.ok ResultVal.nullish)).fst
      = Except.error nullUsageError ∧
    (Except.error nullUsageError : Except JsError ResultVal) ≠ Except.ok ResultVal.nullish := by
  exact ⟨rfl, by simp⟩

/-- C1 (amended): `wrap(O)(A)` settles identically to `O(A)` when the
operation rejects (the same error is rethrown) and when it resolves to an
object; but an exception thrown by telemetry construction after the operation
resolves (reading `.usage` off a nullish result) is caught by the wrapper's
single catch block and rethrown to the caller rather than discarded. -/
theorem c1_wrap_transparency_amended (cfg : TelemetryConfig) (options : AISDKOptions)
    (startTime now : ℚ) :
    (∀ e : JsError,
      (wrapGenerateText cfg options startTime now (Except.error e)).fst = Except.error e) ∧
    (∀ (text : Option Str) (usage : Option Usage),
      (wrapGenerateText cfg options startTime now (Except.ok (ResultVal.obj text usage))).fst
        = Except.ok (ResultVal.obj text usage)) ∧
    (wrapGenerateText cfg options startTime now (Except.ok ResultVal.nullish)).fst
      = Except.error nullUsageError := by
  exact ⟨fun e => rfl, fun text usage => rfl, rfl⟩

/-- C2: when the wrapped operation rejects with error e, the wrapped call
rejects with the same error, and exactly one record is enqueued, with usage
all zero and metadata carrying error = e.message and errorType = e.name. -/
theorem c2_error_rethrown_and_recorded (cfg : TelemetryConfig) (options : AISDKOptions)
    (startTime now : ℚ) (e : JsError) :
    (wrapGenerateText cfg options startTime now (Except.error e)).fst = Except.error e ∧
    ((wrapGenerateText cfg options startTime now (Except.error e)).snd).map
        (fun r => (r.usage, r.metadata.error, r.metadata.errorType))
      = [(⟨0, 0, 0⟩, some e.message, some e.name)] := by
  exact ⟨rfl, rfl⟩

/-- C3 counterexample: there is no idempotent already-emitted guard. Firing
the installed completion handler twice for the same invocation enqueues two
records, not exactly one. -/
theorem c3_counterexample :
    (streamFinishEvents defaultConfig sampleContext
        [(sampleResult, 10), (sampleResult, 10)]).length = 2 ∧ (2 : Nat) ≠ 1 := by
  exact ⟨rfl, by decide⟩

/-- C3 (amended): the streaming path has no emit-once guard: each firing of
the installed onFinish handler calls the record builder once and enqueues one
record, so k firings enqueue k records (and a stream end alone, which never
calls the handler, enqueues none). -/
theorem c3_one_record_per_finish_firing (cfg : TelemetryConfig) (ctx : TelemetryContext)
    (evs : List ((Option Str × Option Usage) × ℚ)) :
    (streamFinishEvents cfg ctx
        (evs.map fun p => (ResultVal.obj p.1.1 p.1.2, p.2))).length = evs.length := by
  induction evs with
  | nil => rfl
  | cons h t ih =>
    obtain ⟨⟨text, usage⟩, now⟩ := h
    simp only [List.map_cons, streamFinishEvents, onFinishEmitted, recordCompletion,
      List.length_append, List.length_cons, List.length_nil, ih]
    omega

/-- C9 counterexample: a completion record with positive completion tokens and
elapsed time zero carries average tokens per second Infinity, not the claimed
0 — the truthiness guard is on the token count, not on the elapsed time. -/
theorem c9_counterexample :
    (recordCompletion defaultConfig sampleContext
        (ResultVal.obj none (some ⟨5, 5, 10⟩)) 0).map
        (fun r => r.performance.avgCompletionTokensPerSecond)
      = Except.ok JsNum.posInf ∧ JsNum.posInf ≠ JsNum.num 0 := by
  refine ⟨?_, by simp⟩
  simp [recordCompletion, avgCompletionTokensPerSecond, jsDivNum]
  rfl

/-- C9 (amended): the metric is 0 exactly when completionTokens is absent or
zero; with nonzero tokens it is completionTokens / (elapsedMs / 1000), which
for elapsedMs = 0 and positive tokens is Infinity rather than 0; and every
completion record built from a result with usage carries exactly this value. -/
theorem c9_avg_tokens_amended (c t : ℚ) :
    avgCompletionTokensPerSecond none t = JsNum.num 0 ∧
    avgCompletionTokensPerSecond (some 0) t = JsNum.num 0 ∧
    (c ≠ 0 → t ≠ 0 → avgCompletionTokensPerSecond (some c) t = JsNum.num (c / (t / 1000))) ∧
    (0 < c → avgCompletionTokensPerSecond (some c) 0 = JsNum.posInf) ∧
    (∀ (cfg : TelemetryConfig) (ctx : TelemetryContext) (text : Option Str) (u : Usage) (rt : ℚ),
      (recordCompletion cfg ctx (ResultVal.obj text (some u)) rt).map
          (fun r => r.performance.avgCompletionTokensPerSecond)
        = Except.ok (avgCompletionTokensPerSecond (some u.completionTokens) rt)) := by
  refine ⟨rfl, by simp [avgCompletionTokensPerSecond], fun hc ht => ?_, fun hc => ?_,
    fun cfg ctx text u rt => rfl⟩
  · have hdiv : t / 1000 ≠ 0 := div_ne_zero ht (by norm_num)
    simp [avgCompletionTokensPerSecond, jsDivNum, hc, hdiv]
  · have hc0 : c ≠ 0 := ne_of_gt hc
    simp [avgCompletionTokensPerSecond, jsDivNum, hc0, hc]

/-- C9 witness: the amended theorem evaluated at completionTokens 5 with
elapsed 2000 ms (finite quotient) and elapsed 0 ms (Infinity). -/
theorem c9_avg_tokens_amended_witness :
    ((5 : ℚ) ≠ 0 ∧ (2000 : ℚ) ≠ 0 ∧
      avgCompletionTokensPerSecond (some 5) 2000 = JsNum.num (5 / (2000 / 1000))) ∧
    ((0 : ℚ) < 5 ∧ avgCompletionTokensPerSecond (some 5) 0 = JsNum.posInf) := by
  refine ⟨⟨by norm_num, by norm_num,
    (c9_avg_tokens_amended 5 2000).2.2.1 (by norm_num) (by norm_num)⟩,
    ⟨by norm_num, (c9_avg_tokens_amended 5 0).2.2.2.1 (by norm_num)⟩⟩

/-- C10: an explicit temperature of 0 falls through the JavaScript `||`
default chain, so the extracted settings carry the default 0.7, and the
options object is indistinguishable from one with no temperature at all. -/
theorem c10_zero_temperature_uses_default (options : AISDKOptions)
    (h : options.temperature = some 0) :
    (extractSettings options).temperature = 7 / 10 ∧
    extractSettings options = extractSettings { options with temperature := none } := by
  constructor
  · simp [extractSettings, jsOrNum, h]
  · simp [extractSettings, jsOrNum, h]

/-- Options fixture with temperature explicitly set to 0. -/
def sampleOptionsTempZero : AISDKOptions :=
  ⟨some [⟨"user", "U".toList⟩], none, none, none, some 0, none, none, none⟩

/-- C10 witness: the zero-temperature theorem evaluated at a concrete options
object with temperature 0. -/
theorem c10_zero_temperature_witness :
    sampleOptionsTempZero.temperature = some 0 ∧
    (extractSettings sampleOptionsTempZero).temperature = 7 / 10 := by
  exact ⟨rfl, (c10_zero_temperature_uses_default sampleOptionsTempZero rfl).1⟩

/-- The pipeline of `truncateAndMaybeRedact` factors as the truncation stage
followed by the redaction stage. -/
theorem truncateAndMaybeRedact_eq_steps (cfg : TelemetryConfig) (text : Str) :
    truncateAndMaybeRedact cfg text = redactStep cfg (truncateStep cfg text) := by
  cases text with
  | nil =>
    show ([] : Str) = redactStep cfg []
    unfold redactStep
    split
    · rfl
    · rfl
  | cons c cs => rfl

/-- C7: the capture pipeline factors as truncate first, then redact — the
redaction stage only ever sees the already-truncated text — and with
redaction disabled a 200-character input under maxContentLength 50 is
captured with length exactly 50. -/
theorem c7_truncate_then_redact :
    (∀ (cfg : TelemetryConfig) (text : Str),
      truncateAndMaybeRedact cfg text = redactStep cfg (truncateStep cfg text)) ∧
    (∀ (cfg : TelemetryConfig) (text : Str),
      cfg.redactSensitiveData = false → text.length = 200 → cfg.maxContentLength = 50 →
      (truncateAndMaybeRedact cfg text).length = 50) := by
  refine ⟨truncateAndMaybeRedact_eq_steps, ?_⟩
  intro cfg text hred hlen hmax
  have hgt : text.length > cfg.maxContentLength := by omega
  rw [truncateAndMaybeRedact_eq_steps]
  unfold redactStep truncateStep
  rw [if_neg (by simp [hred]), if_pos hgt, List.length_take]
  omega

/-- Config fixture with maxContentLength 50. -/
def config50 : TelemetryConfig := { defaultConfig with maxContentLength := 50 }

/-- A 200-character text fixture. -/
def longText : Str := List.replicate 200 'a'

/-- C7 witness: the truncation bound evaluated at the concrete 200-character
input under the concrete maxContentLength-50 config. -/
theorem c7_truncate_then_redact_witness :
    config50.redactSensitiveData = false ∧ longText.length = 200 ∧
    config50.maxContentLength = 50 ∧
    (truncateAndMaybeRedact config50 longText).length = 50 := by
  have hlen : longText.length = 200 := by
    rw [longText, List.length_replicate]
  exact ⟨rfl, hlen, rfl, c7_truncate_then_redact.2 config50 longText rfl hlen rfl⟩

/-- Config fixture with prompt capture disabled. -/
def configNoPrompts : TelemetryConfig := { defaultConfig with capturePrompts := false }

/-- Options fixture whose only user message has empty content. -/
def emptyPromptOptions : AISDKOptions :=
  ⟨some [⟨"user", []⟩], none, none, none, none, none, none, none⟩

/-- Context of an invocation with capturing enabled whose last user message is
the empty string: the wrapper captures the prompt as the empty string. -/
def capturedEmptyContext : TelemetryContext :=
  makeTelemetryContext defaultConfig emptyPromptOptions "generateText" 0

/-- Context of the same invocation with `capturePrompts` disabled: the prompt
is not captured at all. -/
def notCapturedContext : TelemetryContext :=
  makeTelemetryContext configNoPrompts emptyPromptOptions "generateText" 0

/-- C8 counterexample: a prompt captured as the empty string produces
metadata identical to the metadata of the same invocation with capturing
disabled — the absent key does not let a caller distinguish "not captured"
from "captured empty", refuting the distinguishability half of the claim. -/
theorem c8_counterexample :
    capturedEmptyContext.userPrompt = some [] ∧
    notCapturedContext.userPrompt = none ∧
    buildCapturedMetadata defaultConfig capturedEmptyContext none
      = buildCapturedMetadata configNoPrompts notCapturedContext none := by
  exact ⟨rfl, rfl, rfl⟩

/-- C8 (amended): with capturePrompts false the prompt key is absent, and it
is never present as the empty string; but a prompt captured as the empty
string is also omitted, so the key is present exactly when capturing is
enabled and the captured prompt is nonempty — absence does not distinguish
"not captured" from "captured empty". -/
theorem c8_prompt_presence_amended (cfg : TelemetryConfig) (ctx : TelemetryContext)
    (result : Option ResultVal) :
    (cfg.capturePrompts = false → (buildCapturedMetadata cfg ctx result).prompt = none) ∧
    (ctx.userPrompt = some [] → (buildCapturedMetadata cfg ctx result).prompt = none) ∧
    (buildCapturedMetadata cfg ctx result).prompt ≠ some [] ∧
    ((buildCapturedMetadata cfg ctx result).prompt ≠ none →
      cfg.capturePrompts = true ∧ ∃ p : Str, ctx.userPrompt = some p ∧ p ≠ []) := by
  have hp : (buildCapturedMetadata cfg ctx result).prompt
      = if cfg.capturePrompts && strTruthy ctx.userPrompt then ctx.userPrompt else none := rfl
  refine ⟨fun h => ?_, fun h => ?_, ?_, fun h => ?_⟩
  · simp [hp, h]
  · simp [hp, h, strTruthy]
  · rw [hp]
    split
    · next hcond =>
      cases hu : ctx.userPrompt with
      | none => simp
      | some p =>
        rw [hu] at hcond
        simp only [strTruthy, Bool.and_eq_true, Bool.not_eq_true'] at hcond
        intro hpe
        injection hpe with hpe2
        rw [hpe2] at hcond
        simp at hcond
    · simp
  · rw [hp] at h
    by_cases hcond : (cfg.capturePrompts && strTruthy ctx.userPrompt) = true
    · simp only [Bool.and_eq_true] at hcond
      refine ⟨hcond.1, ?_⟩
      cases hu : ctx.userPrompt with
      | none => rw [hu] at hcond; simp [strTruthy] at hcond
      | some p =>
        refine ⟨p, rfl, ?_⟩
        rw [hu] at hcond
        simp only [strTruthy, Bool.not_eq_true'] at hcond
        intro hpe
        rw [hpe] at hcond
        simp at hcond
    · rw [if_neg hcond] at h
      exact absurd rfl h

/-- C8 witness: the amended theorem evaluated at the concrete
capturing-disabled configuration and context. -/
theorem c8_prompt_presence_witness :
    configNoPrompts.capturePrompts = false ∧
    (buildCapturedMetadata configNoPrompts notCapturedContext none).prompt = none := by
  exact ⟨rfl, (c8_prompt_presence_amended configNoPrompts notCapturedContext none).1 rfl⟩

/-- C4 counterexample: with maxAttempts 3 and baseDelay 1000 and every send
failing, the batch is sent 4 times in total (one flush send plus three
retries), not the claimed 3, and the delays between sends are 0, 0, 2000 and
4000 ms rather than 1000 then 2000. -/
theorem c4_counterexample :
    flushBatchTrace (fun _ => false) 3 1000
      = { sendCount := 4, delays := [0, 0, 2000, 4000],
          status := ConnectionStatus.error, batchDropped := true } ∧
    (4 : Nat) ≠ 3 := by
  constructor
  · have h1 : List.range' 1 3 = [1, 2, 3] := rfl
    norm_num [flushBatchTrace, h1, retryAttempts]
  · decide

/-- Closed form of the retry loop when every attempt fails: each listed
attempt sends once, waiting baseDelay times 2 to the power (attempt - 1)
before every attempt after the first, and no attempt succeeds. -/
theorem retryAttempts_all_fail (baseDelay : ℚ) (l : List Nat) :
    retryAttempts (fun _ => false) baseDelay l
      = (l.map (fun k => if 1 < k then baseDelay * 2 ^ (k - 1) else 0), l.length, false) := by
  induction l with
  | nil => rfl
  | cons k rest ih => simp [retryAttempts, ih]

/-- C4 (amended): a batch whose sends all fail is sent maxAttempts + 1 total
times — the initial flush send plus maxAttempts retries; the first retry is
immediate and the delay before retry k (for k at least 2) is
baseDelay * 2 ^ (k - 1), i.e. 2x, 4x, ... baseDelay; after exhausting the
retries the batch is dropped and the status is error. -/
theorem c4_retry_schedule_amended (maxAttempts : Nat) (baseDelay : ℚ)
    (h : 1 ≤ maxAttempts) :
    flushBatchTrace (fun _ => false) maxAttempts baseDelay
      = { sendCount := maxAttempts + 1
          delays := 0 :: 0 :: (List.range (maxAttempts - 1)).map fun j => baseDelay * 2 ^ (j + 1)
          status := ConnectionStatus.error
          batchDropped := true } := by
  obtain ⟨m, rfl⟩ : ∃ m, maxAttempts = m + 1 :=
    ⟨maxAttempts - 1, (Nat.succ_pred_eq_of_pos h).symm⟩
  have hrange : List.range' 1 (m + 1) = 1 :: List.range' 2 m := by
    rw [List.range'_succ]
  simp only [flushBatchTrace, retryAttempts_all_fail, hrange]
  have hmap : (List.range' 2 m).map (fun k => if 1 < k then baseDelay * 2 ^ (k - 1) else 0)
      = (List.range m).map fun j => baseDelay * 2 ^ (j + 1) := by
    rw [List.range'_eq_map_range, List.map_map]
    refine List.map_congr_left fun j _ => ?_
    have h2 : 1 < 2 + j := by omega
    have h3 : 2 + j - 1 = j + 1 := by omega
    simp [h2, h3]
  simp [hmap, List.length_range']
  omega

/-- C4 witness: the amended retry schedule evaluated at maxAttempts 3 and
baseDelay 1000. -/
theorem c4_retry_schedule_witness :
    1 ≤ 3 ∧
    flushBatchTrace (fun _ => false) 3 1000
      = { sendCount := 3 + 1
          delays := 0 :: 0 :: (List.range (3 - 1)).map fun j => (1000 : ℚ) * 2 ^ (j + 1)
          status := ConnectionStatus.error
          batchDropped := true } := by
  exact ⟨by decide, c4_retry_schedule_amended 3 1000 (by decide)⟩

/-- Filling an initially partial batch: starting from a pending batch `acc`
and flushed history `fl`, enqueueing the records `rest` one by one, where
`acc` and `rest` together have exactly `batchSize` records, flushes exactly
once — on the last enqueue — producing the single batch `acc ++ rest` and an
empty queue. -/
theorem enqueueAll_fills_batch (cfg : TelemetryConfig) (rest : List TelemetryRecord) :
    ∀ (acc : List TelemetryRecord) (fl : List (List TelemetryRecord)),
      rest ≠ [] → acc.length + rest.length = cfg.batchSize →
      enqueueAll cfg ⟨acc, fl⟩ rest = ⟨[], fl ++ [acc ++ rest]⟩ := by
  induction rest with
  | nil => intro acc fl hne _; exact absurd rfl hne
  | cons r rest ih =>
    intro acc fl _ hlen
    cases rest with
    | nil =>
      have hsize : cfg.batchSize ≤ (acc ++ [r]).length := by
        simp only [List.length_append, List.length_cons, List.length_nil] at hlen ⊢
        omega
      have hflush : flushBatch ⟨acc ++ [r], fl⟩ = ⟨[], fl ++ [acc ++ [r]]⟩ := by
        unfold flushBatch
        rw [if_neg (by simp)]
      show sendTelemetry cfg ⟨acc, fl⟩ r = _
      unfold sendTelemetry
      rw [if_pos hsize, hflush]
    | cons r2 rest2 =>
      have hlt : ¬ cfg.batchSize ≤ (acc ++ [r]).length := by
        simp only [List.length_append, List.length_cons, List.length_nil] at hlen ⊢
        omega
      have step : sendTelemetry cfg ⟨acc, fl⟩ r = ⟨acc ++ [r], fl⟩ := by
        unfold sendTelemetry
        rw [if_neg hlt]
      have tail := ih (acc ++ [r]) fl (by simp)
        (by simp only [List.length_append, List.length_cons, List.length_nil] at hlen ⊢; omega)
      calc enqueueAll cfg ⟨acc, fl⟩ (r :: r2 :: rest2)
          = enqueueAll cfg (sendTelemetry cfg ⟨acc, fl⟩ r) (r2 :: rest2) := rfl
        _ = enqueueAll cfg ⟨acc ++ [r], fl⟩ (r2 :: rest2) := by rw [step]
        _ = ⟨[], fl ++ [(acc ++ [r]) ++ (r2 :: rest2)]⟩ := tail
        _ = ⟨[], fl ++ [acc ++ (r :: r2 :: rest2)]⟩ := by simp

/-- C5: enqueueing exactly batchSize records into an empty queue triggers the
size flush on the last enqueue: one batch holding exactly those records in
insertion order is flushed, and the pending queue ends empty. -/
theorem c5_size_triggered_flush (cfg : TelemetryConfig) (rs : List TelemetryRecord)
    (hpos : 1 ≤ cfg.batchSize) (hlen : rs.length = cfg.batchSize) :
    enqueueAll cfg ⟨[], []⟩ rs = ⟨[], [rs]⟩ := by
  have hne : rs ≠ [] := by
    intro h
    rw [h] at hlen
    simp at hlen
    omega
  have := enqueueAll_fills_batch cfg rs [] [] hne (by simpa using hlen)
  simpa using this

/-- Config fixture with batchSize 3. -/
def config3 : TelemetryConfig := { defaultConfig with batchSize := 3 }

/-- A record fixture: the error record of a failed sample invocation. -/
def sampleRecord : TelemetryRecord :=
  recordError defaultConfig sampleContext ⟨"Error", "boom"⟩ 10

/-- C5 witness: three consecutive enqueues under batchSize 3 flush exactly
one batch of those three records and leave the queue empty. -/
theorem c5_size_triggered_flush_witness :
    (1 ≤ config3.batchSize ∧
      [sampleRecord, sampleRecord, sampleRecord].length = config3.batchSize) ∧
    enqueueAll config3 ⟨[], []⟩ [sampleRecord, sampleRecord, sampleRecord]
      = ⟨[], [[sampleRecord, sampleRecord, sampleRecord]]⟩ := by
  exact ⟨⟨by decide, by decide⟩,
    c5_size_triggered_flush config3 [sampleRecord, sampleRecord, sampleRecord]
      (by decide) (by decide)⟩

/-- First-some choice on options, used to state that a later match overrides
an earlier accumulator value. -/
def optOr {α : Type} (a b : Option α) : Option α :=
  match a with
  | some x => some x
  | none => b

/-- Content of the last message in the list carrying the given role: the
first match when searching the reversed list. -/
def lastRoleContent (role : String) (ms : List Message) : Option Str :=
  (ms.reverse.find? fun m => m.role == role).map Message.content

/-- optOr is associative. -/
theorem optOr_assoc {α : Type} (a b c : Option α) :
    optOr (optOr a b) c = optOr a (optOr b c) := by
  cases a <;> rfl

/-- optOr with an absent right operand. -/
theorem optOr_none_right {α : Type} (a : Option α) : optOr a none = a := by
  cases a <;> rfl

/-- Option.map distributes over optOr. -/
theorem optOr_map {α β : Type} (f : α → β) (a b : Option α) :
    (optOr a b).map f = optOr (a.map f) (b.map f) := by
  cases a <;> rfl

/-- find? over an append takes the first hit of the left part, falling back
to the right part. -/
theorem find?_append {α : Type} (p : α → Bool) (l1 l2 : List α) :
    (l1 ++ l2).find? p = optOr (l1.find? p) (l2.find? p) := by
  induction l1 with
  | nil => simp [optOr]
  | cons a t ih =>
    by_cases h : p a
    · simp [List.find?_cons_of_pos, h, optOr]
    · simp [List.find?_cons_of_neg, h, ih]

/-- Unfolding lastRoleContent over a cons cell: the tail's last match
overrides the head's match. -/
theorem lastRoleContent_cons (role : String) (m : Message) (t : List Message) :
    lastRoleContent role (m :: t)
      = optOr (lastRoleContent role t)
          (if m.role = role then some m.content else none) := by
  simp only [lastRoleContent, List.reverse_cons, find?_append, optOr_map]
  congr 1
  by_cases h : m.role = role
  · simp [List.find?, h]
  · have hb : (m.role == role) = false := by
      simp only [beq_eq_false_iff_ne, ne_eq]
      exact h
    simp [List.find?, hb, h]

/-- The scanning loop of extractPrompts computes, for each of the two roles,
the content of the last matching message, falling back to the accumulator. -/
theorem scanPrompts_eq (ms : List Message) (u0 s0 : Option Str) :
    scanPrompts ms (u0, s0)
      = (optOr (lastRoleContent "user" ms) u0, optOr (lastRoleContent "system" ms) s0) := by
  induction ms generalizing u0 s0 with
  | nil => simp [scanPrompts, lastRoleContent, optOr]
  | cons m t ih =>
    show scanPrompts (m :: t) (u0, s0) = _
    rw [scanPrompts]
    by_cases h0 : m.role = ""
    · rw [if_pos h0, ih, lastRoleContent_cons, lastRoleContent_cons, h0]
      have hu : ("" : String) ≠ "user" := by decide
      have hs : ("" : String) ≠ "system" := by decide
      rw [if_neg hu, if_neg hs, optOr_none_right, optOr_none_right]
    · rw [if_neg h0, ih, lastRoleContent_cons, lastRoleContent_cons,
        optOr_assoc, optOr_assoc]
      congr 1
      · congr 1
        by_cases hu : m.role = "user"
        · rw [if_pos hu, if_pos hu]
          rfl
        · rw [if_neg hu, if_neg hu]
          rfl
      · congr 1
        by_cases hs : m.role = "system"
        · rw [if_pos hs, if_pos hs]
          rfl
        · rw [if_neg hs, if_neg hs]
          rfl

/-- Benign-config identity of the capture pipeline: with redaction disabled
and the text within the length bound, the pipeline returns it unchanged. -/
theorem truncateAndMaybeRedact_id (cfg : TelemetryConfig) (t : Str)
    (hred : cfg.redactSensitiveData = false) (hlen : t.length ≤ cfg.maxContentLength) :
    truncateAndMaybeRedact cfg t = t := by
  rw [truncateAndMaybeRedact_eq_steps]
  unfold redactStep truncateStep
  rw [if_neg (by simp [hred]), if_neg (by omega)]

/-- C6: the captured userPrompt is the content of the last message with role
user and the captured systemPrompt the content of the last message with role
system — the last occurrence wins regardless of earlier user or system
messages — stated under capturing enabled, redaction disabled and contents
within the length bound so the pipeline is the identity. -/
theorem c6_last_occurrence_wins (cfg : TelemetryConfig) (messages : List Message)
    (u s : Str)
    (hcap : cfg.capturePrompts = true) (hsysc : cfg.captureSystemPrompt = true)
    (hred : cfg.redactSensitiveData = false)
    (hu : lastRoleContent "user" messages = some u)
    (hs : lastRoleContent "system" messages = some s)
    (hul : u.length ≤ cfg.maxContentLength) (hsl : s.length ≤ cfg.maxContentLength) :
    (extractPrompts cfg messages).userPrompt = some u ∧
    (extractPrompts cfg messages).systemPrompt = some s := by
  have hscan := scanPrompts_eq messages none none
  rw [hu, hs] at hscan
  constructor
  · show (if cfg.capturePrompts = false then none
      else some (truncateAndMaybeRedact cfg ((scanPrompts messages (none, none)).1.getD []))) = _
    rw [hscan, if_neg (by simp [hcap])]
    show some (truncateAndMaybeRedact cfg u) = some u
    rw [truncateAndMaybeRedact_id cfg u hred hul]
  · show (if cfg.captureSystemPrompt = false then none
      else some (truncateAndMaybeRedact cfg ((scanPrompts messages (none, none)).2.getD []))) = _
    rw [hscan, if_neg (by simp [hsysc])]
    show some (truncateAndMaybeRedact cfg s) = some s
    rw [truncateAndMaybeRedact_id cfg s hred hsl]

/-- Conversation fixture with two user turns and two system turns. -/
def conversation : List Message :=
  [⟨"system", "S1".toList⟩, ⟨"user", "A".toList⟩,
   ⟨"system", "S2".toList⟩, ⟨"user", "B".toList⟩]

/-- C6 witness: in the four-message conversation fixture the captured prompts
are the later occurrences "B" and "S2", not the opening turns. -/
theorem c6_last_occurrence_wins_witness :
    (lastRoleContent "user" conversation = some "B".toList ∧
      lastRoleContent "system" conversation = some "S2".toList) ∧
    (extractPrompts defaultConfig conversation).userPrompt = some "B".toList ∧
    (extractPrompts defaultConfig conversation).systemPrompt = some "S2".toList := by
  exact ⟨⟨rfl, rfl⟩,
    c6_last_occurrence_wins defaultConfig conversation "B".toList "S2".toList
      rfl rfl rfl rfl rfl (by decide) (by decide)⟩
